import Mathlib

/-!
Shallow embedding of the document translation pipeline
(BOND2624/document_translator): the structural extractor
(`src/agents/parser_agent.py`), the translatable-content split
(`src/utils/file_manager.py`), the translation stage
(`src/agents/translation_agent.py`), the style stage
(`src/agents/style_agent.py`) and the reconstructor
(`src/agents/output_agent.py`), together with theorems about the
ordering, classification and styling behaviour of those stages.
-/

namespace DocumentTranslator

/-- Auxiliary for `pyStrip`: drop leading whitespace characters. -/
def dropLeadingSpace : List Char → List Char
  | [] => []
  | c :: cs => if c.isWhitespace then dropLeadingSpace cs else c :: cs

/-- Python's `str.strip()`: remove whitespace from both ends
(embedded structurally over the character list so that concrete
documents evaluate inside the kernel). -/
def pyStrip (s : String) : String :=
  ⟨dropLeadingSpace ((dropLeadingSpace s.data.reverse).reverse)⟩

/-- Python's `str.upper()` on the ASCII range. -/
def pyUpper (s : String) : String := ⟨s.data.map Char.toUpper⟩

/-- Python's `language.lower().replace("-", "_")` used by `FontConfig`
to normalise a language name into a table key. -/
def normalizeLanguageKey (language : String) : String :=
  ⟨(language.data.map Char.toLower).map fun c => if c = '-' then '_' else c⟩

/-- Auxiliary for `pySplitBlank`: greedy left-to-right split on the
two-character separator "\n\n", accumulating the current chunk in
reverse. -/
def splitParas : List Char → List Char → List String
  | [], acc => [⟨acc.reverse⟩]
  | '\n' :: '\n' :: rest, acc => (⟨acc.reverse⟩ : String) :: splitParas rest []
  | c :: rest, acc => splitParas rest (c :: acc)

/-- Python's `content.split('\n\n')` as used by `_parse_txt`. -/
def pySplitBlank (s : String) : List String := splitParas s.data []

/-- An inline run as extracted by `DocumentParserTool._parse_docx`: the
python code substitutes the defaults `False` / "Default" for missing
values at extraction time, so the embedding takes the already
materialised record. -/
structure TextRun where
  text : String
  bold : Bool
  italic : Bool
  underline : Bool
  font_name : String
  font_size : String
  font_color : String
deriving DecidableEq

/-- One paragraph inside a table cell (`_parse_docx`, cell handling). -/
structure CellPara where
  text : String
  style : String
  alignment : String
deriving DecidableEq

/-- One table cell: its flat text and its paragraphs. -/
structure TableCell where
  text : String
  paragraphs : List CellPara
deriving DecidableEq

/-- One table row. -/
structure TableRow where
  cells : List TableCell
deriving DecidableEq

/-- A block-level node of the source document, in document order, as
iterated by `_parse_docx` over `doc.element.body`. -/
inductive Block where
  | para (text style alignment : String) (runs : List TextRun)
  | table (rows : List TableRow)
deriving DecidableEq

/-- A parsed paragraph record (`para_data` in `_parse_docx` /
`_parse_txt`).  `index` is the document-order position assigned by
`_parse_docx`; the `_parse_txt` path never sets an "index" key, which
the embedding renders as `none`. -/
structure ParaData where
  text : String
  style : String
  alignment : String
  runs : List TextRun
  index : Option Nat
deriving DecidableEq

/-- A parsed table record (`table_data` in `_parse_docx`). -/
structure TableData where
  rows : List TableRow
  index : Nat
deriving DecidableEq

/-- Core of `DocumentParserTool._parse_docx`: walk the body blocks in
order keeping the `element_index` counter; a paragraph whose stripped
text is empty is skipped and does not advance the counter; every other
paragraph and every table receives the current counter value and
advances it. -/
def parseBlocks : List Block → Nat → List ParaData × List TableData
  | [], _ => ([], [])
  | Block.para t s a rs :: bs, i =>
      if pyStrip t = "" then parseBlocks bs i
      else
        let rest := parseBlocks bs (i + 1)
        (⟨pyStrip t, s, a, rs, some i⟩ :: rest.1, rest.2)
  | Block.table rows :: bs, i =>
      let rest := parseBlocks bs (i + 1)
      (rest.1, ⟨rows, i⟩ :: rest.2)

/-- `_parse_docx` starts its `element_index` counter at 0. -/
def parseDocx (bs : List Block) : List ParaData × List TableData :=
  parseBlocks bs 0

/-- The run `_parse_txt` builds for each non-empty chunk. -/
def defaultRun (t : String) : TextRun :=
  ⟨t, false, false, false, "Default", "Default", "Default"⟩

/-- `DocumentParserTool._parse_txt`: split the file on blank lines and
keep each chunk with non-empty stripped text as a "Normal",
left-aligned paragraph with one default run; no "index" key is set. -/
def parseTxt (content : String) : List ParaData :=
  (pySplitBlank content).filterMap fun pt =>
    if pyStrip pt = "" then none
    else some ⟨pyStrip pt, "Normal", "left", [defaultRun (pyStrip pt)], none⟩

/-- A block node that produces an element: a table, or a paragraph with
non-empty stripped text. -/
def isNonEmptyBlock : Block → Bool
  | Block.para t _ _ _ => !(pyStrip t == "")
  | Block.table _ => true

/-- The `style_semantic_map` table of
`DocumentParserTool._analyze_semantic_structure`, as a lookup with the
code's explicit default `{'type': 'unknown', 'level': None,
'translatable': True}` for unmapped styles. -/
def styleSemanticMap (style : String) : String × Option Nat × Bool :=
  if style = "CustomTitle" then ("document_title", some 0, true)
  else if style = "CustomH1" then ("main_header", some 1, true)
  else if style = "CustomH2" then ("sub_header", some 2, true)
  else if style = "CustomH3" then ("sub_header", some 3, true)
  else if style = "Heading 1" then ("main_header", some 1, true)
  else if style = "Heading 2" then ("sub_header", some 2, true)
  else if style = "Heading 3" then ("sub_header", some 3, true)
  else if style = "Normal" then ("body_text", none, true)
  else if style = "FixedContent" then ("special_content", none, true)
  else if style = "List Paragraph" then ("list_item", none, true)
  else if style = "Quote" then ("quote", none, true)
  else if style = "Caption" then ("caption", none, true)
  else ("unknown", none, true)

/-- Whether a style label is one of the keys of `style_semantic_map`. -/
def styleIsMapped (style : String) : Bool :=
  style == "CustomTitle" || style == "CustomH1" || style == "CustomH2" ||
  style == "CustomH3" || style == "Heading 1" || style == "Heading 2" ||
  style == "Heading 3" || style == "Normal" || style == "FixedContent" ||
  style == "List Paragraph" || style == "Quote" || style == "Caption"

/-- A paragraph after `_analyze_semantic_structure` has annotated it
with `semantic_type`, `hierarchy_level`, `is_translatable` and
`paragraph_index` (its enumeration index in the paragraphs list, which
is distinct from the document-order `index`). -/
structure SemPara where
  text : String
  style : String
  alignment : String
  runs : List TextRun
  index : Option Nat
  semantic_type : String
  hierarchy_level : Option Nat
  is_translatable : Bool
  paragraph_index : Nat
deriving DecidableEq

/-- Per-paragraph annotation of
`DocumentParserTool._analyze_semantic_structure` applied to the parser
output (in which empty paragraphs were already skipped by `_parse_docx`
/ `_parse_txt`, so the function's own empty-text skip never fires):
each paragraph gets the semantic information looked up from its style
and `paragraph_index := i`, the enumeration index over the paragraphs
list. -/
def analyzeSemanticStructure (ps : List ParaData) : List SemPara :=
  ps.enum.map fun ip =>
    let info := styleSemanticMap ip.2.style
    { text := ip.2.text, style := ip.2.style, alignment := ip.2.alignment,
      runs := ip.2.runs, index := ip.2.index,
      semantic_type := info.1, hierarchy_level := info.2.1,
      is_translatable := info.2.2, paragraph_index := ip.1 }

/-- The "formatting" sub-dictionary carried by pipeline items; the two
optional fields model the presence or absence of the "alignment" and
"runs" keys, which `_apply_style_profile` reads with `.get` defaults
and a key-presence test respectively. -/
structure Formatting where
  alignment : Option String
  runs : Option (List TextRun)
deriving DecidableEq

/-- The `content_item` dictionary built by
`DocumentFileManager._extract_translatable_content`: note that its
"index" field is `para['paragraph_index']` (the paragraph-list
enumeration index), not the document-order `index` assigned by
`_parse_docx`. -/
structure ContentItem where
  text : String
  index : Option Nat
  style : String
  semantic_type : String
  hierarchy_level : Option Nat
  formatting : Formatting
deriving DecidableEq

/-- The translatable-content artifact
(`01_translatable_content.json`): title, headers, the five content
kinds, and the parsed tables passed through unchanged. -/
structure TranslatableContent where
  document_title : Option ContentItem
  main_headers : List ContentItem
  sub_headers : List ContentItem
  body_text : List ContentItem
  special_content : List ContentItem
  list_items : List ContentItem
  quotes : List ContentItem
  captions : List ContentItem
  tables : List TableData
deriving DecidableEq

/-- The `content_item` record `_extract_translatable_content` builds
from one annotated paragraph. -/
def contentItemOfPara (p : SemPara) : ContentItem :=
  { text := p.text, index := some p.paragraph_index, style := p.style,
    semantic_type := p.semantic_type, hierarchy_level := p.hierarchy_level,
    formatting := ⟨some p.alignment, some p.runs⟩ }

/-- The categorisation chain of `_extract_translatable_content`: a
paragraph is routed to the bucket of its semantic type; a semantic type
outside the eight listed ones (in particular "unknown") matches no
branch, so the item is discarded. -/
def addContentItem (tc : TranslatableContent) (p : SemPara) : TranslatableContent :=
  let item := contentItemOfPara p
  if p.semantic_type = "document_title" then { tc with document_title := some item }
  else if p.semantic_type = "main_header" then { tc with main_headers := tc.main_headers ++ [item] }
  else if p.semantic_type = "sub_header" then { tc with sub_headers := tc.sub_headers ++ [item] }
  else if p.semantic_type = "body_text" then { tc with body_text := tc.body_text ++ [item] }
  else if p.semantic_type = "special_content" then { tc with special_content := tc.special_content ++ [item] }
  else if p.semantic_type = "list_item" then { tc with list_items := tc.list_items ++ [item] }
  else if p.semantic_type = "quote" then { tc with quotes := tc.quotes ++ [item] }
  else if p.semantic_type = "caption" then { tc with captions := tc.captions ++ [item] }
  else tc

/-- `DocumentFileManager._extract_translatable_content`: every
paragraph that is translatable and has non-empty stripped text is
categorised by semantic type; the parsed tables are stored as they
are. -/
def extractTranslatableContent (paras : List SemPara) (tables : List TableData) :
    TranslatableContent :=
  paras.foldl
    (fun tc p =>
      if ¬ p.is_translatable ∨ pyStrip p.text = "" then tc else addContentItem tc p)
    ⟨none, [], [], [], [], [], [], [], tables⟩

/-- Total number of elements held by a translatable-content artifact. -/
def translatableTotal (tc : TranslatableContent) : Nat :=
  (if tc.document_title.isSome then 1 else 0) +
  tc.main_headers.length + tc.sub_headers.length +
  tc.body_text.length + tc.special_content.length +
  tc.list_items.length + tc.quotes.length + tc.captions.length +
  tc.tables.length

/-- `DocumentTranslationTool._simulate_translation`, with the external
text-generation call modelled by an oracle: `some t` is the text the
Azure OpenAI path returns (after its prefix clean-up); `none` covers
both the exception path of `_call_azure_openai_translation` and the
unconfigured-provider path, in both of which the code returns the
original text prefixed with the upper-cased target-language tag. -/
def simulateTranslation (oracle : String → Option String)
    (target_language : String) (text : String) : String :=
  match oracle text with
  | some t => t
  | none => "[" ++ pyUpper target_language ++ "] " ++ text

/-- A translated element, as built by `_translate_document_title`,
`_translate_header` and `_translate_content_item`: the original item's
index, style, semantic type and formatting are copied verbatim next to
the original and translated texts.  `hierarchy_level` is only written
by the header variant; the title and content variants leave the key
out, rendered here as `none`. -/
structure TranslatedItem where
  original_text : String
  translated_text : String
  semantic_type : String
  index : Option Nat
  style : String
  hierarchy_level : Option Nat
  formatting : Formatting
deriving DecidableEq

/-- `DocumentTranslationTool._translate_document_title`. -/
def translateDocumentTitle (oracle : String → Option String)
    (target_language : String) (item : ContentItem) : TranslatedItem :=
  { original_text := item.text,
    translated_text := simulateTranslation oracle target_language item.text,
    semantic_type := item.semantic_type, index := item.index,
    style := item.style, hierarchy_level := none,
    formatting := item.formatting }

/-- `DocumentTranslationTool._translate_header`. -/
def translateHeader (oracle : String → Option String)
    (target_language : String) (item : ContentItem) : TranslatedItem :=
  { original_text := item.text,
    translated_text := simulateTranslation oracle target_language item.text,
    semantic_type := item.semantic_type, index := item.index,
    style := item.style, hierarchy_level := item.hierarchy_level,
    formatting := item.formatting }

/-- `DocumentTranslationTool._translate_content_item`. -/
def translateContentItem (oracle : String → Option String)
    (target_language : String) (item : ContentItem) : TranslatedItem :=
  { original_text := item.text,
    translated_text := simulateTranslation oracle target_language item.text,
    semantic_type := item.semantic_type, index := item.index,
    style := item.style, hierarchy_level := none,
    formatting := item.formatting }

/-- A translated table (`_translate_table`): the parsed table is
wrapped verbatim under "original_table".  The `table_styled` flag is
written `True` by the style stage only; `false` models its absence. -/
structure TranslatedTable where
  original_table : TableData
  table_styled : Bool
deriving DecidableEq

/-- `DocumentTranslationTool._translate_table`: structure passthrough. -/
def translateTable (t : TableData) : TranslatedTable :=
  { original_table := t, table_styled := false }

/-- The translated-content artifact (`02_translated_content.json`,
whose "content" dictionary becomes the style stage's
"content_blocks"). -/
structure TranslatedContent where
  document_title : Option TranslatedItem
  main_headers : List TranslatedItem
  sub_headers : List TranslatedItem
  body_text : List TranslatedItem
  special_content : List TranslatedItem
  list_items : List TranslatedItem
  quotes : List TranslatedItem
  captions : List TranslatedItem
  tables : List TranslatedTable
deriving DecidableEq

/-- `DocumentTranslationTool._translate_by_semantic_type`: the title,
both header groups, every one of the five content groups and the
tables are each mapped elementwise through their translator; an empty
group stays the empty list the skeleton dictionary starts with, which
equals mapping over the empty list. -/
def translateBySemanticType (oracle : String → Option String)
    (target_language : String) (tc : TranslatableContent) : TranslatedContent :=
  { document_title := tc.document_title.map (translateDocumentTitle oracle target_language),
    main_headers := tc.main_headers.map (translateHeader oracle target_language),
    sub_headers := tc.sub_headers.map (translateHeader oracle target_language),
    body_text := tc.body_text.map (translateContentItem oracle target_language),
    special_content := tc.special_content.map (translateContentItem oracle target_language),
    list_items := tc.list_items.map (translateContentItem oracle target_language),
    quotes := tc.quotes.map (translateContentItem oracle target_language),
    captions := tc.captions.map (translateContentItem oracle target_language),
    tables := tc.tables.map translateTable }

/-- Total number of elements held by a translated-content artifact. -/
def translatedTotal (tr : TranslatedContent) : Nat :=
  (if tr.document_title.isSome then 1 else 0) +
  tr.main_headers.length + tr.sub_headers.length +
  tr.body_text.length + tr.special_content.length +
  tr.list_items.length + tr.quotes.length + tr.captions.length +
  tr.tables.length

/-- `FontConfig.LANGUAGE_FONTS` (src/config.py): primary and fallback
font lists per normalised language key. -/
def languageFonts (key : String) : Option (List String × List String) :=
  if key = "chinese_simplified" then
    some (["Microsoft YaHei", "SimSun", "SimHei"], ["Arial Unicode MS", "Segoe UI", "Arial"])
  else if key = "chinese_traditional" then
    some (["Microsoft JhengHei", "MingLiU", "PMingLiU"], ["Arial Unicode MS", "Segoe UI", "Arial"])
  else if key = "japanese" then
    some (["Meiryo", "MS Gothic", "Yu Gothic"], ["Arial Unicode MS", "Segoe UI", "Arial"])
  else if key = "korean" then
    some (["Malgun Gothic", "Batang", "Dotum"], ["Arial Unicode MS", "Segoe UI", "Arial"])
  else if key = "thai" then
    some (["Angsana New", "Cordia New", "Tahoma"], ["Arial Unicode MS", "Segoe UI", "Arial"])
  else if key = "hindi" then
    some (["Mangal", "Devanagari Sangam MN", "Nirmala UI"], ["Arial Unicode MS", "Segoe UI", "Arial"])
  else if key = "russian" then
    some (["Times New Roman", "Arial", "Calibri"], ["Segoe UI", "Tahoma", "Arial Unicode MS"])
  else if key = "spanish" then
    some (["Arial", "Calibri", "Times New Roman"], ["Segoe UI", "Tahoma", "Helvetica"])
  else if key = "french" then
    some (["Arial", "Calibri", "Times New Roman"], ["Segoe UI", "Tahoma", "Helvetica"])
  else if key = "german" then
    some (["Arial", "Calibri", "Times New Roman"], ["Segoe UI", "Tahoma", "Helvetica"])
  else if key = "english" then
    some (["Arial", "Calibri", "Times New Roman"], ["Segoe UI", "Tahoma", "Helvetica"])
  else none

/-- `FontConfig.UNIVERSAL_FALLBACKS`. -/
def universalFallbacks : List String :=
  ["Arial Unicode MS", "Segoe UI", "Tahoma", "Arial", "sans-serif"]

/-- Order-preserving duplicate removal used by
`FontConfig.get_font_stack`. -/
def dedupPreserve (l : List String) : List String :=
  l.foldl (fun acc f => if f ∈ acc then acc else acc ++ [f]) []

/-- `FontConfig.get_font_stack`: primary plus fallback fonts of the
language (English primaries plus the universal fallbacks for an
unlisted one), duplicates removed keeping first occurrences. -/
def getFontStack (language : String) : List String :=
  let key := normalizeLanguageKey language
  match languageFonts key with
  | some pf => dedupPreserve (pf.1 ++ pf.2)
  | none => dedupPreserve (["Arial", "Calibri", "Times New Roman"] ++ universalFallbacks)

/-- `FontConfig.get_primary_font`: first primary font of the language,
"Arial" (first English primary) for an unlisted one. -/
def getPrimaryFont (language : String) : String :=
  let key := normalizeLanguageKey language
  match languageFonts key with
  | some pf => pf.1.headD "Arial"
  | none => "Arial"

/-- The language rules dictionary returned by
`DocumentStyleTool._get_language_style_rules`: fonts from
`FontConfig`, and the hard-coded "justify" default text alignment and
"left" header alignment. -/
structure LanguageRules where
  writing_direction : String
  preferred_fonts : List String
  primary_font : String
  text_alignment_default : String
  header_alignment : String
deriving DecidableEq

/-- `DocumentStyleTool._get_language_style_rules`. -/
def getLanguageStyleRules (target_language : String) : LanguageRules :=
  { writing_direction := "ltr",
    preferred_fonts := getFontStack target_language,
    primary_font := getPrimaryFont target_language,
    text_alignment_default := "justify",
    header_alignment := "left" }

/-- The `StyleProfile` dataclass of style_agent.py; the per-kind
dictionaries are modelled as lookups returning `none` where the python
`.get` would miss. -/
structure StyleProfile where
  name : String
  description : String
  font_families : List String
  font_sizes : String → Option String
  colors : String → Option String
  alignments : String → Option String
  spacing : String → Option String

/-- The built-in "professional" profile
(`DocumentStyleTool.STYLE_PROFILES`). -/
def professionalProfile : StyleProfile :=
  { name := "professional",
    description := "Professional business document styling",
    font_families := ["Arial", "Calibri", "Times New Roman"],
    font_sizes := fun t =>
      if t = "document_title" then some "18pt"
      else if t = "main_header" then some "14pt"
      else if t = "sub_header" then some "12pt"
      else if t = "body_text" then some "11pt"
      else if t = "special_content" then some "10pt"
      else none,
    colors := fun t =>
      if t = "document_title" then some "#1f4e79"
      else if t = "main_header" then some "#2c5aa0"
      else if t = "sub_header" then some "#365f91"
      else if t = "body_text" then some "#1a1a1a"
      else if t = "special_content" then some "#5d6d7e"
      else none,
    alignments := fun t =>
      if t = "document_title" then some "center"
      else if t = "main_header" then some "left"
      else if t = "sub_header" then some "left"
      else if t = "body_text" then some "justify"
      else if t = "special_content" then some "left"
      else none,
    spacing := fun t =>
      if t = "document_title" then some "24pt after"
      else if t = "main_header" then some "18pt before, 6pt after"
      else if t = "sub_header" then some "12pt before, 3pt after"
      else if t = "body_text" then some "0pt before, 6pt after"
      else if t = "special_content" then some "6pt before, 6pt after"
      else none }

/-- One styled run produced by `_apply_style_profile`. -/
structure StyledRun where
  text : String
  bold : Bool
  italic : Bool
  underline : Bool
  font_name : String
  font_stack : List String
  font_size : String
  font_color : String
deriving DecidableEq

/-- The `new_formatting` dictionary `_apply_style_profile` attaches as
"styled_formatting". -/
structure StyledFormatting where
  alignment : String
  spacing : String
  runs : List StyledRun
deriving DecidableEq

/-- A pipeline element as the style stage sees and extends it: the
translated fields plus the three keys `_apply_style_profile` writes
("styled_formatting", "style_profile", "language_adapted"), optional
while not yet written. -/
structure StyledElement where
  original_text : String
  translated_text : String
  semantic_type : String
  index : Option Nat
  style : String
  hierarchy_level : Option Nat
  formatting : Formatting
  styled_formatting : Option StyledFormatting
  style_profile : Option String
  language_adapted : Bool
deriving DecidableEq

/-- View of a translated item as a style-stage element (the keys the
style stage writes are still absent). -/
def toStyledElement (t : TranslatedItem) : StyledElement :=
  { original_text := t.original_text, translated_text := t.translated_text,
    semantic_type := t.semantic_type, index := t.index, style := t.style,
    hierarchy_level := t.hierarchy_level, formatting := t.formatting,
    styled_formatting := none, style_profile := none,
    language_adapted := false }

/-- `DocumentStyleTool._apply_style_profile`: alignment is "center"
for the title, the language header alignment for headers, "center" for
any other element whose original alignment was "center", and otherwise
the language default; bold is forced for title and headers; each
original run is rewritten (or one default run created when the "runs"
key is absent) carrying the full translated text, the language primary
font and stack, and the profile's size and colour for the element
type; the result is the input element with "styled_formatting",
"style_profile" and "language_adapted" written. -/
def applyStyleProfile (element_type : String) (e : StyledElement)
    (profile : StyleProfile) (rules : LanguageRules) : StyledElement :=
  let original_alignment := e.formatting.alignment.getD "left"
  let alignment :=
    if element_type == "document_title" then "center"
    else if element_type == "main_header" || element_type == "sub_header" then
      rules.header_alignment
    else if original_alignment == "center" then "center"
    else rules.text_alignment_default
  let should_be_bold :=
    element_type == "document_title" || element_type == "main_header" ||
    element_type == "sub_header"
  let text := e.translated_text
  let font_size := (profile.font_sizes element_type).getD "11pt"
  let font_color := (profile.colors element_type).getD "#000000"
  let runs :=
    match e.formatting.runs with
    | some rs =>
        rs.map fun run =>
          { text := text, bold := should_be_bold || run.bold,
            italic := run.italic, underline := run.underline,
            font_name := rules.primary_font, font_stack := rules.preferred_fonts,
            font_size := font_size, font_color := font_color }
    | none =>
        [{ text := text, bold := should_be_bold, italic := false,
           underline := false, font_name := rules.primary_font,
           font_stack := rules.preferred_fonts, font_size := font_size,
           font_color := font_color }]
  { e with
    styled_formatting := some
      { alignment := alignment,
        spacing := (profile.spacing element_type).getD "6pt after",
        runs := runs },
    style_profile := some profile.name,
    language_adapted := true }

/-- `_run` of `DocumentStyleTool`: a table is passed through with
`table_styled` set. -/
def styleTable (t : TranslatedTable) : TranslatedTable :=
  { t with table_styled := true }

/-- The styled-elements artifact the style stage hands to the output
agent (`document_structure` in `03_output_agent_input.json`): title,
the two header groups, and only the "body_text" and "special_content"
content groups — the `_run` loops over content kinds enumerate exactly
`["body_text", "special_content"]`, so the list_items, quotes and
captions groups of the input have no counterpart here. -/
structure StyledElements where
  title : Option StyledElement
  main_headers : List StyledElement
  sub_headers : List StyledElement
  body_text : List StyledElement
  special_content : List StyledElement
  tables : List TranslatedTable
deriving DecidableEq

/-- The element-processing core of `DocumentStyleTool._run` on the
translated document elements (whose "content_blocks" dictionary is the
translation stage's "content"): the title is styled as
"document_title", each header group with its header type, the
"body_text" and "special_content" groups with their own names, and the
tables are passed through with `table_styled` set; the list_items,
quotes and captions groups are not visited by any loop and do not
reach the output. -/
def styleStage (de : TranslatedContent) (profile : StyleProfile)
    (rules : LanguageRules) : StyledElements :=
  { title := de.document_title.map fun t =>
      applyStyleProfile "document_title" (toStyledElement t) profile rules,
    main_headers := de.main_headers.map fun h =>
      applyStyleProfile "main_header" (toStyledElement h) profile rules,
    sub_headers := de.sub_headers.map fun h =>
      applyStyleProfile "sub_header" (toStyledElement h) profile rules,
    body_text := de.body_text.map fun c =>
      applyStyleProfile "body_text" (toStyledElement c) profile rules,
    special_content := de.special_content.map fun c =>
      applyStyleProfile "special_content" (toStyledElement c) profile rules,
    tables := de.tables.map styleTable }

/-- Total number of elements held by a styled-elements artifact. -/
def styledTotal (se : StyledElements) : Nat :=
  (if se.title.isSome then 1 else 0) +
  se.main_headers.length + se.sub_headers.length +
  se.body_text.length + se.special_content.length +
  se.tables.length

/-- Alignment recorded in an element's styled formatting. -/
def styledAlignment (e : StyledElement) : Option String :=
  e.styled_formatting.map fun f => f.alignment

/-- Runs recorded in an element's styled formatting. -/
def styledRuns (e : StyledElement) : List StyledRun :=
  (e.styled_formatting.map fun f => f.runs).getD []

/-- An entry of the `all_elements` list
`DocumentOutputTool._create_document_structure` sorts: a paragraph
element or a table element. -/
inductive SortItem where
  | paragraph (e : StyledElement)
  | table (t : TranslatedTable)
deriving DecidableEq

/-- The python sort key `x.get("index", 0)`: a paragraph element's
"index" with default 0 for a missing key; a table's "index" is first
copied from its "original_table". -/
def sortKey : SortItem → Nat
  | SortItem.paragraph e => e.index.getD 0
  | SortItem.table t => t.original_table.index

/-- Insertion step of a stable sort: the new item goes after every
already-placed item whose key is ≤ its own, exactly as python's stable
`list.sort(key=...)` keeps earlier items first on ties. -/
def insertByKey (a : SortItem) : List SortItem → List SortItem
  | [] => [a]
  | b :: l => if sortKey b ≤ sortKey a then b :: insertByKey a l else a :: b :: l

/-- Stable sort by `sortKey`, modelling
`all_elements.sort(key=lambda x: x.get("index", 0))`. -/
def sortByIndex (l : List SortItem) : List SortItem :=
  l.foldl (fun acc a => insertByKey a acc) []

/-- One unit of the emitted document: a content paragraph written from
an element, a table grid, or one of the empty spacer paragraphs the
code adds after the title and after each table. -/
inductive OutElem where
  | paragraph (e : StyledElement)
  | table (t : TranslatedTable)
  | spacer
deriving DecidableEq

/-- `DocumentOutputTool._add_table_with_formatting`: a table with no
rows, or whose first row has no cells, emits nothing; otherwise the
grid is written followed by a spacer paragraph. -/
def emitTable (t : TranslatedTable) : List OutElem :=
  match t.original_table.rows with
  | [] => []
  | r :: _ => if r.cells.length = 0 then [] else [OutElem.table t, OutElem.spacer]

/-- Emission of one sorted entry: a paragraph element always yields
exactly one paragraph (`_add_paragraph_with_formatting` always calls
`doc.add_paragraph()`); a table entry yields its grid and spacer. -/
def emitItem : SortItem → List OutElem
  | SortItem.paragraph e => [OutElem.paragraph e]
  | SortItem.table t => emitTable t

/-- The sorted merge of `_create_document_structure`: `all_elements`
is built from the main headers, then sub headers, then "body_text" and
"special_content" content, then tables, is sorted by the index key,
and each entry is emitted in sorted order.  The title never enters
this list. -/
def createBody (mh sh bt sc : List StyledElement)
    (tabs : List TranslatedTable) : List OutElem :=
  (sortByIndex
      (((mh ++ sh ++ bt ++ sc).map SortItem.paragraph) ++
        tabs.map SortItem.table)).map emitItem |>.flatten

/-- `DocumentOutputTool._create_document_structure`: the title, when
present, is written first (followed by a spacer paragraph) before the
position-sorted merge of all other elements. -/
def createDocumentStructure (se : StyledElements) : List OutElem :=
  (match se.title with
   | some t => [OutElem.paragraph t, OutElem.spacer]
   | none => []) ++
  createBody se.main_headers se.sub_headers se.body_text se.special_content se.tables

/-- Whether an emitted unit is a content paragraph. -/
def isParagraphOut : OutElem → Bool
  | OutElem.paragraph _ => true
  | _ => false

/-- Number of content paragraphs (title, headers, body and special
content — not spacers, not tables) in an emitted document. -/
def outParagraphCount (l : List OutElem) : Nat :=
  (l.filter isParagraphOut).length

/-- Number of paragraph elements a styled model holds. -/
def modelParagraphCount (se : StyledElements) : Nat :=
  (if se.title.isSome then 1 else 0) +
  se.main_headers.length + se.sub_headers.length +
  se.body_text.length + se.special_content.length

/-- The full pipeline on one docx document: extract, annotate, split
into translatable content, translate, style, reconstruct. -/
def runPipeline (oracle : String → Option String) (target_language : String)
    (blocks : List Block) (profile : StyleProfile) : List OutElem :=
  let parsed := parseDocx blocks
  let sem := analyzeSemanticStructure parsed.1
  let tc := extractTranslatableContent sem parsed.2
  let tr := translateBySemanticType oracle target_language tc
  let se := styleStage tr profile (getLanguageStyleRules target_language)
  createDocumentStructure se

/-- Short description of an emitted unit, for stating concrete
ordering results: the original text of a paragraph, "TABLE" for a
table, "" for a spacer. -/
def outName : OutElem → String
  | OutElem.paragraph e => e.original_text
  | OutElem.table _ => "TABLE"
  | OutElem.spacer => ""

/-- Whether a sortable entry is a paragraph element. -/
def isParagraphItem : SortItem → Bool
  | SortItem.paragraph _ => true
  | SortItem.table _ => false

/-- The document-order position values assigned by the parser, in the
order the parser stores them (paragraph list then table list). -/
def parsedIndices (pr : List ParaData × List TableData) : List Nat :=
  pr.1.filterMap (fun p => p.index) ++ pr.2.map (fun t => t.index)

/-- A minimal translated item of a given semantic type, for concrete
instantiations. -/
def sampleItem (st : String) (i : Nat) (txt : String) : TranslatedItem :=
  { original_text := txt, translated_text := txt, semantic_type := st,
    index := some i, style := "Normal", hierarchy_level := none,
    formatting := ⟨some "left", some [defaultRun txt]⟩ }

/-- A minimal style-stage element of a given semantic type, for
concrete instantiations. -/
def plainElement (st txt : String) (i : Option Nat) : StyledElement :=
  { original_text := txt, translated_text := txt, semantic_type := st,
    index := i, style := "Normal", hierarchy_level := none,
    formatting := ⟨some "left", some []⟩, styled_formatting := none,
    style_profile := none, language_adapted := false }

/-- A translated model holding exactly one list item, one quote and
one caption — the three content kinds the style stage never visits. -/
def c1Input : TranslatedContent :=
  { document_title := none, main_headers := [], sub_headers := [],
    body_text := [], special_content := [],
    list_items := [sampleItem "list_item" 0 "item one"],
    quotes := [sampleItem "quote" 1 "a quote"],
    captions := [sampleItem "caption" 2 "a caption"],
    tables := [] }

/-- A one-row, two-cell table for the ordering scenario. -/
def c2Table : List TableRow :=
  [⟨[⟨"A", [⟨"A", "Normal", "left"⟩]⟩, ⟨"B", [⟨"B", "Normal", "left"⟩]⟩]⟩]

/-- The claim's ordering scenario as a source document: a paragraph, a
table, a paragraph — document positions 0, 1, 2. -/
def c2Blocks : List Block :=
  [Block.para "First paragraph." "Normal" "left" [defaultRun "First paragraph."],
   Block.table c2Table,
   Block.para "Second paragraph." "Normal" "left" [defaultRun "Second paragraph."]]

/-- A parsed paragraph with a style label outside the
`style_semantic_map` table. -/
def c3Para : ParaData :=
  ⟨"Hello world", "MyFancyStyle", "left", [defaultRun "Hello world"], some 0⟩

/-- A body-text element with no "index" key. -/
def c4NoPos : StyledElement := plainElement "body_text" "orphan" none

/-- A body-text element at position 1. -/
def c4WithPos : StyledElement := plainElement "body_text" "anchored" (some 1)

/-- A styled model containing an element without a position value next
to a positioned one. -/
def c4Model : StyledElements := ⟨none, [], [], [c4NoPos, c4WithPos], [], []⟩

/-- A translated title item (original alignment left). -/
def c5TitleItem : TranslatedItem :=
  { original_text := "T", translated_text := "T",
    semantic_type := "document_title", index := some 0,
    style := "CustomTitle", hierarchy_level := none,
    formatting := ⟨some "left", some [defaultRun "T"]⟩ }

/-- A translated body-text item whose original alignment is center. -/
def c5BodyItem : TranslatedItem :=
  { original_text := "B", translated_text := "B",
    semantic_type := "body_text", index := some 1, style := "Normal",
    hierarchy_level := none,
    formatting := ⟨some "center", some [defaultRun "B"]⟩ }

/-- A translated model with a title and one originally-centered body
paragraph. -/
def c5Input : TranslatedContent :=
  ⟨some c5TitleItem, [], [], [c5BodyItem], [], [], [], [], []⟩

/-- A styled model whose title carries position 99 while a body
paragraph carries position 0. -/
def c10Model : StyledElements :=
  ⟨some (plainElement "document_title" "the title" (some 99)), [], [],
   [plainElement "body_text" "body" (some 0)], [], []⟩

theorem parseBlocks_para (t s a : String) (rs : List TextRun) (bs : List Block) (i : Nat) :
    parseBlocks (Block.para t s a rs :: bs) i =
      if pyStrip t = "" then parseBlocks bs i
      else (⟨pyStrip t, s, a, rs, some i⟩ :: (parseBlocks bs (i + 1)).1,
            (parseBlocks bs (i + 1)).2) := rfl

theorem parseBlocks_table (rows : List TableRow) (bs : List Block) (i : Nat) :
    parseBlocks (Block.table rows :: bs) i =
      ((parseBlocks bs (i + 1)).1, ⟨rows, i⟩ :: (parseBlocks bs (i + 1)).2) := rfl

theorem parseBlocks_count (bs : List Block) : ∀ i : Nat,
    (parseBlocks bs i).1.length + (parseBlocks bs i).2.length =
      (bs.filter isNonEmptyBlock).length := by
  induction bs with
  | nil => intro i; rfl
  | cons b bs ih =>
    intro i
    cases b with
    | para t s a rs =>
      by_cases h : pyStrip t = ""
      · rw [parseBlocks_para, if_pos h]
        simpa [isNonEmptyBlock, h] using ih i
      · rw [parseBlocks_para, if_neg h]
        have hf : ((Block.para t s a rs :: bs).filter isNonEmptyBlock).length =
            (bs.filter isNonEmptyBlock).length + 1 := by
          simp [isNonEmptyBlock, h, List.filter_cons]
        rw [hf]
        have := ih (i + 1)
        simp only [List.length_cons]
        omega
    | table rows =>
      rw [parseBlocks_table]
      have hf : ((Block.table rows :: bs).filter isNonEmptyBlock).length =
          (bs.filter isNonEmptyBlock).length + 1 := by
        simp [isNonEmptyBlock, List.filter_cons]
      rw [hf]
      have := ih (i + 1)
      simp only [List.length_cons]
      omega

theorem parseBlocks_indices (bs : List Block) : ∀ i : Nat,
    (parsedIndices (parseBlocks bs i)).Perm
      (List.range' i (bs.filter isNonEmptyBlock).length) := by
  induction bs with
  | nil => intro i; simp [parseBlocks, parsedIndices]
  | cons b bs ih =>
    intro i
    cases b with
    | para t s a rs =>
      by_cases h : pyStrip t = ""
      · rw [parseBlocks_para, if_pos h]
        simpa [isNonEmptyBlock, h] using ih i
      · rw [parseBlocks_para, if_neg h]
        have hf : ((Block.para t s a rs :: bs).filter isNonEmptyBlock).length =
            (bs.filter isNonEmptyBlock).length + 1 := by
          simp [isNonEmptyBlock, h, List.filter_cons]
        rw [hf, List.range'_succ]
        have hp : parsedIndices
            (⟨pyStrip t, s, a, rs, some i⟩ :: (parseBlocks bs (i + 1)).1,
             (parseBlocks bs (i + 1)).2) =
              i :: parsedIndices (parseBlocks bs (i + 1)) := by
          simp [parsedIndices]
        rw [hp]
        exact List.Perm.cons i (ih (i + 1))
    | table rows =>
      rw [parseBlocks_table]
      have hf : ((Block.table rows :: bs).filter isNonEmptyBlock).length =
          (bs.filter isNonEmptyBlock).length + 1 := by
        simp [isNonEmptyBlock, List.filter_cons]
      rw [hf, List.range'_succ]
      refine List.Perm.trans ?_ (List.Perm.cons i (ih (i + 1)))
      simp [parsedIndices]

theorem filterMap_if_length (f : String → ParaData) : ∀ l : List String,
    (l.filterMap fun pt => if pyStrip pt = "" then none else some (f pt)).length =
      (l.filter fun s => !(pyStrip s == "")).length := by
  intro l
  induction l with
  | nil => rfl
  | cons s l ih =>
    by_cases h : pyStrip s = ""
    · simp [List.filterMap_cons, List.filter_cons, h, ih]
    · simp [List.filterMap_cons, List.filter_cons, h, ih]

/-- C7: for every source document, extraction produces exactly one
element per non-empty block node: in the docx path the paragraph and
table counts add up to the number of blocks that are tables or have
non-empty stripped text, and the position values handed out are
exactly 0,...,n-1, one per non-empty block (an empty paragraph neither
produces an element nor consumes a position); in the txt path the
paragraph count equals the number of chunks with non-empty stripped
text. -/
theorem extraction_count_matches_nonempty_blocks :
    (∀ bs : List Block,
       (parseDocx bs).1.length + (parseDocx bs).2.length =
         (bs.filter isNonEmptyBlock).length ∧
       (parsedIndices (parseDocx bs)).Perm
         (List.range (bs.filter isNonEmptyBlock).length)) ∧
    (∀ content : String,
       (parseTxt content).length =
         ((pySplitBlank content).filter fun s => !(pyStrip s == "")).length) := by
  constructor
  · intro bs
    refine ⟨parseBlocks_count bs 0, ?_⟩
    simpa [List.range_eq_range'] using parseBlocks_indices bs 0
  · intro content
    exact filterMap_if_length
      (fun pt => ⟨pyStrip pt, "Normal", "left", [defaultRun (pyStrip pt)], none⟩)
      (pySplitBlank content)

theorem addContentItem_unknown (tc : TranslatableContent) (p : SemPara)
    (h : p.semantic_type = "unknown") : addContentItem tc p = tc := by
  simp [addContentItem, h]

theorem extract_fold_unknown (ps : List SemPara) : ∀ tc : TranslatableContent,
    (∀ p ∈ ps, p.semantic_type = "unknown") →
    ps.foldl
      (fun tc p =>
        if ¬ p.is_translatable ∨ pyStrip p.text = "" then tc else addContentItem tc p)
      tc = tc := by
  induction ps with
  | nil => intro tc _; rfl
  | cons p ps ih =>
    intro tc h
    have hp : p.semantic_type = "unknown" := h p (by simp)
    have hstep :
        (if ¬ p.is_translatable ∨ pyStrip p.text = "" then tc else addContentItem tc p) = tc := by
      by_cases hc : ¬ p.is_translatable ∨ pyStrip p.text = ""
      · rw [if_pos hc]
      · rw [if_neg hc, addContentItem_unknown tc p hp]
    rw [List.foldl_cons, hstep]
    exact ih tc fun q hq => h q (by simp [hq])

theorem styleSemanticMap_unmapped (s : String) (h : styleIsMapped s = false) :
    styleSemanticMap s = ("unknown", none, true) := by
  simp only [styleIsMapped, Bool.or_eq_false_iff, beq_eq_false_iff_ne, ne_eq] at h
  obtain ⟨⟨⟨⟨⟨⟨⟨⟨⟨⟨⟨h1, h2⟩, h3⟩, h4⟩, h5⟩, h6⟩, h7⟩, h8⟩, h9⟩, h10⟩, h11⟩, h12⟩ := h
  simp [styleSemanticMap, h1, h2, h3, h4, h5, h6, h7, h8, h9, h10, h11, h12]

theorem snd_mem_of_mem_enumFrom {α : Type _} :
    ∀ (l : List α) (n : Nat) (ip : Nat × α), ip ∈ List.enumFrom n l → ip.2 ∈ l := by
  intro l
  induction l with
  | nil => intro n ip h; simp [List.enumFrom] at h
  | cons a l ih =>
    intro n ip h
    simp only [List.enumFrom, List.mem_cons] at h
    rcases h with h | h
    · rw [h]; exact List.mem_cons_self a l
    · exact List.mem_cons_of_mem a (ih (n + 1) ip h)

theorem analyze_semantic_type_of_unmapped (ps : List ParaData)
    (h : ∀ p ∈ ps, styleIsMapped p.style = false) :
    ∀ q ∈ analyzeSemanticStructure ps, q.semantic_type = "unknown" := by
  intro q hq
  simp only [analyzeSemanticStructure, List.mem_map] at hq
  obtain ⟨ip, hip, rfl⟩ := hq
  have hmem : ip.2 ∈ ps := snd_mem_of_mem_enumFrom ps 0 ip hip
  have := styleSemanticMap_unmapped ip.2.style (h ip.2 hmem)
  simp [this]

/-- C3: a paragraph whose style label is not in the mapping table is
assigned the default of `style_semantic_map` — semantic type
"unknown" (not "body_text"), no hierarchy level, translatable — and is
then dropped by `_extract_translatable_content`, whose categorisation
has no branch for "unknown": a document consisting of such paragraphs
yields a translatable-content artifact with no content items at all
(claim C1's spec wording is settled elsewhere; this theorem is the
amended form of claim C3). -/
theorem unmapped_style_unknown_and_dropped :
    (∀ s : String, styleIsMapped s = false →
       styleSemanticMap s = ("unknown", none, true)) ∧
    (∀ (ps : List ParaData) (ts : List TableData),
       (∀ p ∈ ps, styleIsMapped p.style = false) →
       extractTranslatableContent (analyzeSemanticStructure ps) ts =
         ⟨none, [], [], [], [], [], [], [], ts⟩) := by
  constructor
  · exact styleSemanticMap_unmapped
  · intro ps ts h
    exact extract_fold_unknown (analyzeSemanticStructure ps) _
      (analyze_semantic_type_of_unmapped ps h)

/-- C3 counterexample: the paragraph styled "MyFancyStyle" is
extracted with kind "unknown", not the claimed "body_text", and the
translatable content handed to the translation stage does not contain
it. -/
theorem unmapped_style_not_body_text :
    (analyzeSemanticStructure [c3Para]).map (fun p => p.semantic_type) = ["unknown"] ∧
    (analyzeSemanticStructure [c3Para]).map (fun p => p.is_translatable) = [true] ∧
    extractTranslatableContent (analyzeSemanticStructure [c3Para]) [] =
      ⟨none, [], [], [], [], [], [], [], []⟩ := by
  refine ⟨rfl, rfl, by decide⟩

/-- C3 witness: the amended theorem applied to the "MyFancyStyle"
paragraph. -/
theorem unmapped_style_unknown_and_dropped_witness :
    styleSemanticMap "MyFancyStyle" = ("unknown", none, true) ∧
    extractTranslatableContent (analyzeSemanticStructure [c3Para]) [⟨c2Table, 1⟩] =
      ⟨none, [], [], [], [], [], [], [], [⟨c2Table, 1⟩]⟩ :=
  ⟨unmapped_style_unknown_and_dropped.1 "MyFancyStyle" (by decide),
   unmapped_style_unknown_and_dropped.2 [c3Para] [⟨c2Table, 1⟩] (by decide)⟩

/-- C1 (amended): the translation stage preserves presence of the
title and, for every group — headers, all five content kinds, tables —
the element count, the kinds and the position values in order, so the
total element count is unchanged; the style stage does the same for
the groups it emits (title, main and sub headers, body text, special
content, tables), but its output has no groups for list items, quotes
or captions, so its total element count falls short of its input's by
exactly the sizes of those three groups. -/
theorem transform_stages_preserve_retained_groups :
    (∀ (oracle : String → Option String) (lang : String) (tc : TranslatableContent),
       (translateBySemanticType oracle lang tc).document_title.isSome =
           tc.document_title.isSome ∧
       (translateBySemanticType oracle lang tc).main_headers.map
           (fun e => (e.index, e.semantic_type)) =
         tc.main_headers.map (fun e => (e.index, e.semantic_type)) ∧
       (translateBySemanticType oracle lang tc).sub_headers.map
           (fun e => (e.index, e.semantic_type)) =
         tc.sub_headers.map (fun e => (e.index, e.semantic_type)) ∧
       (translateBySemanticType oracle lang tc).body_text.map
           (fun e => (e.index, e.semantic_type)) =
         tc.body_text.map (fun e => (e.index, e.semantic_type)) ∧
       (translateBySemanticType oracle lang tc).special_content.map
           (fun e => (e.index, e.semantic_type)) =
         tc.special_content.map (fun e => (e.index, e.semantic_type)) ∧
       (translateBySemanticType oracle lang tc).list_items.map
           (fun e => (e.index, e.semantic_type)) =
         tc.list_items.map (fun e => (e.index, e.semantic_type)) ∧
       (translateBySemanticType oracle lang tc).quotes.map
           (fun e => (e.index, e.semantic_type)) =
         tc.quotes.map (fun e => (e.index, e.semantic_type)) ∧
       (translateBySemanticType oracle lang tc).captions.map
           (fun e => (e.index, e.semantic_type)) =
         tc.captions.map (fun e => (e.index, e.semantic_type)) ∧
       (translateBySemanticType oracle lang tc).tables.map
           (fun t => t.original_table) = tc.tables ∧
       translatedTotal (translateBySemanticType oracle lang tc) =
         translatableTotal tc) ∧
    (∀ (tr : TranslatedContent) (p : StyleProfile) (r : LanguageRules),
       (styleStage tr p r).title.isSome = tr.document_title.isSome ∧
       (styleStage tr p r).main_headers.map (fun e => (e.index, e.semantic_type)) =
         tr.main_headers.map (fun e => (e.index, e.semantic_type)) ∧
       (styleStage tr p r).sub_headers.map (fun e => (e.index, e.semantic_type)) =
         tr.sub_headers.map (fun e => (e.index, e.semantic_type)) ∧
       (styleStage tr p r).body_text.map (fun e => (e.index, e.semantic_type)) =
         tr.body_text.map (fun e => (e.index, e.semantic_type)) ∧
       (styleStage tr p r).special_content.map (fun e => (e.index, e.semantic_type)) =
         tr.special_content.map (fun e => (e.index, e.semantic_type)) ∧
       (styleStage tr p r).tables.map (fun t => t.original_table) =
         tr.tables.map (fun t => t.original_table) ∧
       styledTotal (styleStage tr p r) +
           (tr.list_items.length + tr.quotes.length + tr.captions.length) =
         translatedTotal tr) := by
  constructor
  · intro oracle lang tc
    refine ⟨?_, ?_, ?_, ?_, ?_, ?_, ?_, ?_, ?_, ?_⟩
    · simp [translateBySemanticType]
    · simp only [translateBySemanticType, List.map_map]; rfl
    · simp only [translateBySemanticType, List.map_map]; rfl
    · simp only [translateBySemanticType, List.map_map]; rfl
    · simp only [translateBySemanticType, List.map_map]; rfl
    · simp only [translateBySemanticType, List.map_map]; rfl
    · simp only [translateBySemanticType, List.map_map]; rfl
    · simp only [translateBySemanticType, List.map_map]; rfl
    · simp only [translateBySemanticType, List.map_map]
      exact List.map_id _
    · simp [translateBySemanticType, translatedTotal, translatableTotal,
        Option.isSome_map']
  · intro tr p r
    refine ⟨?_, ?_, ?_, ?_, ?_, ?_, ?_⟩
    · simp [styleStage]
    · simp only [styleStage, List.map_map]; rfl
    · simp only [styleStage, List.map_map]; rfl
    · simp only [styleStage, List.map_map]; rfl
    · simp only [styleStage, List.map_map]; rfl
    · simp only [styleStage, List.map_map]; rfl
    · simp only [styleStage, styledTotal, translatedTotal, List.length_map,
        Option.isSome_map']
      omega
/-- C1 counterexample: a translated model holding one list item, one
quote and one caption (three elements), styled with the built-in
profile for Spanish, comes out of the style stage with zero elements —
the transform stage does drop elements of these kinds. -/
theorem style_stage_drops_list_quote_caption :
    translatedTotal c1Input = 3 ∧
    styledTotal (styleStage c1Input professionalProfile
      (getLanguageStyleRules "Spanish")) = 0 := by
  exact ⟨rfl, rfl⟩

/-- C9: the translation stage never aborts on an element whose
external call fails: the stage output holds exactly as many elements
as its input for every oracle (so the remaining elements are still
processed), a failing call (`oracle text = none`) makes
`_simulate_translation` return the original text prefixed with the
upper-cased target-language tag, and every element translator records
exactly that fallback as the element's translated text. -/
theorem translation_failure_falls_back_to_tagged_text :
    (∀ (oracle : String → Option String) (lang : String) (tc : TranslatableContent),
       translatedTotal (translateBySemanticType oracle lang tc) =
         translatableTotal tc) ∧
    (∀ (oracle : String → Option String) (lang text : String),
       oracle text = none →
       simulateTranslation oracle lang text = "[" ++ pyUpper lang ++ "] " ++ text) ∧
    (∀ (oracle : String → Option String) (lang : String) (item : ContentItem),
       (translateContentItem oracle lang item).translated_text =
           simulateTranslation oracle lang item.text ∧
       (translateHeader oracle lang item).translated_text =
           simulateTranslation oracle lang item.text ∧
       (translateDocumentTitle oracle lang item).translated_text =
           simulateTranslation oracle lang item.text) := by
  refine ⟨?_, ?_, ?_⟩
  · intro oracle lang tc
    simp [translateBySemanticType, translatedTotal, translatableTotal]
  · intro oracle lang text h
    simp [simulateTranslation, h]
  · intro oracle lang item
    exact ⟨rfl, rfl, rfl⟩

/-- C9 witness: with an oracle that always fails and target language
"Spanish", the element text "Hello" is translated to the tagged
fallback "[SPANISH] Hello". -/
theorem translation_failure_fallback_witness :
    simulateTranslation (fun _ => none) "Spanish" "Hello" = "[SPANISH] Hello" := by
  have h := translation_failure_falls_back_to_tagged_text.2.1
    (fun _ => none) "Spanish" "Hello" rfl
  exact h.trans (by decide)

theorem applyStyleProfile_title_alignment (e : StyledElement) (p : StyleProfile)
    (r : LanguageRules) :
    styledAlignment (applyStyleProfile "document_title" e p r) = some "center" := rfl

theorem applyStyleProfile_center_preserved (t : String) (e : StyledElement)
    (p : StyleProfile) (r : LanguageRules)
    (h1 : (t == "document_title") = false) (h2 : (t == "main_header") = false)
    (h3 : (t == "sub_header") = false)
    (h4 : e.formatting.alignment = some "center") :
    styledAlignment (applyStyleProfile t e p r) = some "center" := by
  simp [applyStyleProfile, styledAlignment, h1, h2, h3, h4]

theorem applyStyleProfile_bold_forced (t : String) (e : StyledElement)
    (p : StyleProfile) (r : LanguageRules)
    (h : ((t == "document_title") || (t == "main_header") || (t == "sub_header")) = true) :
    ∀ run ∈ styledRuns (applyStyleProfile t e p r), run.bold = true := by
  intro run hrun
  rcases hr : e.formatting.runs with _ | rs
  · simp only [applyStyleProfile, styledRuns, hr, Option.map_some', Option.getD_some,
      List.mem_singleton] at hrun
    rw [hrun]
    simpa using h
  · simp only [applyStyleProfile, styledRuns, hr, Option.map_some', Option.getD_some,
      List.mem_map] at hrun
    obtain ⟨r0, _, rfl⟩ := hrun
    simpa using Or.inl h

theorem applyStyleProfile_body_bold (e : StyledElement) (p : StyleProfile)
    (r : LanguageRules) (rs : List TextRun) (h : e.formatting.runs = some rs) :
    (styledRuns (applyStyleProfile "body_text" e p r)).map (fun run => run.bold) =
      rs.map (fun run => run.bold) := by
  simp only [applyStyleProfile, styledRuns, h, Option.map_some', Option.getD_some,
    List.map_map]
  rfl

/-- C5: after the style stage the document title is center-aligned for
every style profile and every language rules (so regardless of any
default alignment), and every body-text or special-content element
whose original alignment was "center" keeps center alignment even
though the default alignment for those kinds comes from the language
rules (the code's hard-coded default being "justify"). -/
theorem title_centered_and_center_alignment_preserved :
    (∀ (de : TranslatedContent) (p : StyleProfile) (r : LanguageRules)
       (t : StyledElement),
       (styleStage de p r).title = some t → styledAlignment t = some "center") ∧
    (∀ (de : TranslatedContent) (p : StyleProfile) (r : LanguageRules)
       (s : StyledElement),
       s ∈ (styleStage de p r).body_text ∨ s ∈ (styleStage de p r).special_content →
       s.formatting.alignment = some "center" →
       styledAlignment s = some "center") := by
  constructor
  · intro de p r t ht
    simp only [styleStage, Option.map_eq_some'] at ht
    obtain ⟨a, _, rfl⟩ := ht
    exact applyStyleProfile_title_alignment _ p r
  · intro de p r s hs hc
    rcases hs with hs | hs
    · simp only [styleStage, List.mem_map] at hs
      obtain ⟨c, _, rfl⟩ := hs
      exact applyStyleProfile_center_preserved "body_text" _ p r
        (by decide) (by decide) (by decide) hc
    · simp only [styleStage, List.mem_map] at hs
      obtain ⟨c, _, rfl⟩ := hs
      exact applyStyleProfile_center_preserved "special_content" _ p r
        (by decide) (by decide) (by decide) hc

/-- C5 witness: the styled title of a concrete model is centered, and
a concrete originally-centered body paragraph stays centered under the
built-in profile and the Spanish rules, whose default text alignment
is "justify". -/
theorem title_centered_witness :
    (getLanguageStyleRules "Spanish").text_alignment_default = "justify" ∧
    styledAlignment (applyStyleProfile "document_title" (toStyledElement c5TitleItem)
      professionalProfile (getLanguageStyleRules "Spanish")) = some "center" ∧
    styledAlignment (applyStyleProfile "body_text" (toStyledElement c5BodyItem)
      professionalProfile (getLanguageStyleRules "Spanish")) = some "center" :=
  ⟨rfl,
   title_centered_and_center_alignment_preserved.1 c5Input professionalProfile
     (getLanguageStyleRules "Spanish") _ rfl,
   title_centered_and_center_alignment_preserved.2 c5Input professionalProfile
     (getLanguageStyleRules "Spanish") _ (Or.inl (by simp [styleStage, c5Input]))
     rfl⟩

/-- C6: styling is not cumulative: re-applying `_apply_style_profile`
with the same element type, profile and rules to an already styled
element returns the element unchanged, because (second conjunct) the
styled formatting is a function of the element's original
"formatting", its translated text, its kind, the profile and the
rules alone — all of which the first application leaves untouched. -/
theorem apply_style_profile_idempotent :
    (∀ (t : String) (e : StyledElement) (p : StyleProfile) (r : LanguageRules),
       applyStyleProfile t (applyStyleProfile t e p r) p r =
         applyStyleProfile t e p r) ∧
    (∀ (t : String) (e e' : StyledElement) (p : StyleProfile) (r : LanguageRules),
       e'.formatting = e.formatting → e'.translated_text = e.translated_text →
       (applyStyleProfile t e' p r).styled_formatting =
         (applyStyleProfile t e p r).styled_formatting) := by
  constructor
  · intro t e p r
    rfl
  · intro t e e' p r h1 h2
    simp [applyStyleProfile, h1, h2]

/-- C6 witness: the idempotence and the input-dependence conjuncts
applied to a concrete body-text element (and a second element agreeing
with it on formatting and translated text). -/
theorem apply_style_profile_idempotent_witness :
    applyStyleProfile "body_text"
        (applyStyleProfile "body_text" (toStyledElement c5BodyItem)
          professionalProfile (getLanguageStyleRules "Spanish"))
        professionalProfile (getLanguageStyleRules "Spanish") =
      applyStyleProfile "body_text" (toStyledElement c5BodyItem)
        professionalProfile (getLanguageStyleRules "Spanish") ∧
    (applyStyleProfile "body_text"
        { toStyledElement c5BodyItem with index := some 7 }
        professionalProfile (getLanguageStyleRules "Spanish")).styled_formatting =
      (applyStyleProfile "body_text" (toStyledElement c5BodyItem)
        professionalProfile (getLanguageStyleRules "Spanish")).styled_formatting :=
  ⟨apply_style_profile_idempotent.1 "body_text" (toStyledElement c5BodyItem)
     professionalProfile (getLanguageStyleRules "Spanish"),
   apply_style_profile_idempotent.2 "body_text" (toStyledElement c5BodyItem)
     { toStyledElement c5BodyItem with index := some 7 }
     professionalProfile (getLanguageStyleRules "Spanish") rfl rfl⟩

/-- C8: after the style stage, every run of the document title and of
every main or sub header has bold set, independent of the source
formatting; a body-text element's styled runs carry exactly the
original runs' bold flags. -/
theorem title_header_runs_bold_body_bold_preserved :
    (∀ (de : TranslatedContent) (p : StyleProfile) (r : LanguageRules)
       (t : StyledElement), (styleStage de p r).title = some t →
       ∀ run ∈ styledRuns t, run.bold = true) ∧
    (∀ (de : TranslatedContent) (p : StyleProfile) (r : LanguageRules)
       (s : StyledElement),
       s ∈ (styleStage de p r).main_headers ∨ s ∈ (styleStage de p r).sub_headers →
       ∀ run ∈ styledRuns s, run.bold = true) ∧
    (∀ (de : TranslatedContent) (p : StyleProfile) (r : LanguageRules)
       (s : StyledElement) (rs : List TextRun),
       s ∈ (styleStage de p r).body_text → s.formatting.runs = some rs →
       (styledRuns s).map (fun run => run.bold) = rs.map (fun run => run.bold)) := by
  refine ⟨?_, ?_, ?_⟩
  · intro de p r t ht
    simp only [styleStage, Option.map_eq_some'] at ht
    obtain ⟨a, _, rfl⟩ := ht
    exact applyStyleProfile_bold_forced "document_title" _ p r (by decide)
  · intro de p r s hs
    rcases hs with hs | hs
    · simp only [styleStage, List.mem_map] at hs
      obtain ⟨c, _, rfl⟩ := hs
      exact applyStyleProfile_bold_forced "main_header" _ p r (by decide)
    · simp only [styleStage, List.mem_map] at hs
      obtain ⟨c, _, rfl⟩ := hs
      exact applyStyleProfile_bold_forced "sub_header" _ p r (by decide)
  · intro de p r s rs hs hrs
    simp only [styleStage, List.mem_map] at hs
    obtain ⟨c, _, rfl⟩ := hs
    exact applyStyleProfile_body_bold _ p r rs hrs

/-- C8 witness: on a concrete model whose title and main header have a
non-bold source run and whose body paragraph also has a non-bold run,
the styled title and header runs are bold and the styled body run
keeps bold = false. -/
theorem runs_bold_witness :
    (∀ run ∈ styledRuns (applyStyleProfile "document_title"
        (toStyledElement c5TitleItem) professionalProfile
        (getLanguageStyleRules "Spanish")), run.bold = true) ∧
    (styledRuns (applyStyleProfile "body_text" (toStyledElement c5BodyItem)
        professionalProfile (getLanguageStyleRules "Spanish"))).map
        (fun run => run.bold) = [false] :=
  ⟨title_header_runs_bold_body_bold_preserved.1 c5Input professionalProfile
     (getLanguageStyleRules "Spanish") _ rfl,
   (title_header_runs_bold_body_bold_preserved.2.2 c5Input professionalProfile
     (getLanguageStyleRules "Spanish") _ [defaultRun "B"]
     (by simp [styleStage, c5Input]) rfl).trans (by decide)⟩

theorem insertByKey_perm (a : SortItem) (l : List SortItem) :
    (insertByKey a l).Perm (a :: l) := by
  induction l with
  | nil => exact List.Perm.refl _
  | cons b l ih =>
    rw [insertByKey]
    by_cases h : sortKey b ≤ sortKey a
    · rw [if_pos h]
      exact (ih.cons b).trans (List.Perm.swap a b l)
    · rw [if_neg h]

theorem foldl_insert_perm : ∀ l acc : List SortItem,
    (l.foldl (fun acc a => insertByKey a acc) acc).Perm (acc ++ l) := by
  intro l
  induction l with
  | nil => intro acc; simp
  | cons a l ih =>
    intro acc
    rw [List.foldl_cons]
    refine (ih (insertByKey a acc)).trans ?_
    refine ((insertByKey_perm a acc).append_right l).trans ?_
    simpa using (@List.perm_middle SortItem a acc l).symm

theorem sortByIndex_perm (l : List SortItem) : (sortByIndex l).Perm l := by
  simpa [sortByIndex] using foldl_insert_perm l []

theorem outParagraphCount_append (l1 l2 : List OutElem) :
    outParagraphCount (l1 ++ l2) = outParagraphCount l1 + outParagraphCount l2 := by
  simp [outParagraphCount, List.filter_append]

theorem outParagraphCount_emitTable (t : TranslatedTable) :
    outParagraphCount (emitTable t) = 0 := by
  unfold emitTable
  split
  · rfl
  · split
    · rfl
    · rfl

theorem outParagraphCount_flatten (l : List SortItem) :
    outParagraphCount ((l.map emitItem).flatten) =
      (l.filter isParagraphItem).length := by
  induction l with
  | nil => rfl
  | cons it l ih =>
    simp only [List.map_cons, List.flatten_cons, outParagraphCount_append, ih]
    cases it with
    | paragraph e =>
      simp [emitItem, isParagraphItem, isParagraphOut, List.filter_cons,
        outParagraphCount]
      omega
    | table t =>
      simp [emitItem, isParagraphItem, List.filter_cons, outParagraphCount_emitTable]

theorem sortByIndex_filter_length (l : List SortItem) :
    ((sortByIndex l).filter isParagraphItem).length =
      (l.filter isParagraphItem).length := by
  have h := List.Perm.countP_eq isParagraphItem (sortByIndex_perm l)
  simpa [List.countP_eq_length_filter] using h

theorem outParagraphCount_createBody (mh sh bt sc : List StyledElement)
    (tabs : List TranslatedTable) :
    outParagraphCount (createBody mh sh bt sc tabs) =
      mh.length + sh.length + bt.length + sc.length := by
  unfold createBody
  rw [outParagraphCount_flatten, sortByIndex_filter_length]
  simp only [List.filter_append, List.filter_map, List.length_append,
    List.length_map, Function.comp_def, isParagraphItem, List.filter_true,
    List.filter_false, List.length_nil]
  omega

/-- C4 (amended): the reconstructor never fails on an element with a
missing position and never withholds the output document: the sort key
of an element without an "index" silently defaults to 0 (so the
element is merged as if its position were 0), and for every model the
emitted document contains exactly one content paragraph per title,
header, body-text and special-content element of the model — no
`MissingPositionInvariant` error exists anywhere in the code. -/
theorem missing_position_defaults_and_document_still_emitted :
    (∀ e : StyledElement, e.index = none → sortKey (SortItem.paragraph e) = 0) ∧
    (∀ se : StyledElements,
       outParagraphCount (createDocumentStructure se) = modelParagraphCount se) := by
  constructor
  · intro e h
    simp [sortKey, h]
  · intro se
    cases htd : se.title with
    | none =>
      simp [createDocumentStructure, htd, outParagraphCount_append,
        outParagraphCount_createBody, modelParagraphCount]
    | some t =>
      simp only [createDocumentStructure, htd, outParagraphCount_append,
        outParagraphCount_createBody, modelParagraphCount, Option.isSome_some,
        if_true]
      have h2 : outParagraphCount [OutElem.paragraph t, OutElem.spacer] = 1 := rfl
      omega

/-- C4 counterexample: on a model holding an element with no position
value the reconstructor does emit an output document — the orphan
element is sorted with default key 0 and written first —, refuting
"fails fast and never emits an output document for such a model". -/
theorem missing_position_document_emitted :
    createDocumentStructure c4Model =
      [OutElem.paragraph c4NoPos, OutElem.paragraph c4WithPos] := by decide

/-- C4 witness: the amended theorem applied to the concrete model
containing the position-less element. -/
theorem missing_position_defaults_witness :
    sortKey (SortItem.paragraph c4NoPos) = 0 ∧
    outParagraphCount (createDocumentStructure c4Model) = 2 :=
  ⟨missing_position_defaults_and_document_still_emitted.1 c4NoPos rfl,
   (missing_position_defaults_and_document_still_emitted.2 c4Model).trans (by decide)⟩

/-- C10: whenever the final model holds a title, reconstruction emits
it as the very first paragraph (followed by the spacer paragraph) and
only then the position-sorted merge, which is built solely from the
header, content and table groups — so the title comes first whatever
its own position value is. -/
theorem title_emitted_first (se : StyledElements) (t : StyledElement)
    (h : se.title = some t) :
    createDocumentStructure se =
      OutElem.paragraph t :: OutElem.spacer ::
        createBody se.main_headers se.sub_headers se.body_text
          se.special_content se.tables := by
  simp [createDocumentStructure, h]

/-- C10 witness: in a concrete model whose title carries position 99
while a body paragraph carries position 0, the title is still emitted
first. -/
theorem title_emitted_first_witness :
    createDocumentStructure c10Model =
      OutElem.paragraph (plainElement "document_title" "the title" (some 99)) ::
        OutElem.spacer ::
          [OutElem.paragraph (plainElement "body_text" "body" (some 0))] :=
  (title_emitted_first c10Model _ rfl).trans (by decide)

/-- C2 (evaluating the pipeline at the failing input): for the
document "First paragraph." / table / "Second paragraph." with
document positions 0, 1, 2, the full pipeline emits the table after
both paragraphs, not between them: the parser stores document position
1 for the table, but the translatable-content split re-indexes the
paragraphs by their position in the paragraphs list (0 and 1), so the
second paragraph ties with the table at key 1 and the stable sort
keeps content before tables. -/
theorem table_at_position_one_emitted_after_both_paragraphs :
    (runPipeline (fun _ => none) "Spanish" c2Blocks professionalProfile).map outName =
      ["First paragraph.", "Second paragraph.", "TABLE", ""] ∧
    ((parseDocx c2Blocks).2.map fun t => t.index) = [1] ∧
    ((extractTranslatableContent (analyzeSemanticStructure (parseDocx c2Blocks).1)
        (parseDocx c2Blocks).2).body_text.map fun c => c.index) =
      [some 0, some 1] := by
  refine ⟨by decide, by decide, by decide⟩

end DocumentTranslator
